import Mathlib

/-!
Verification of the BugBeheer bug/risk-tracking tool against its design
specification.  The backend logic lives in `src/server.js` (Express route
handlers over a relational store) and the frontend view logic in the React
component (risk banding, session gate, filtering and sorting).  Route
handlers are embedded as pure functions over an explicit list of records;
JavaScript field values (undefined / null / string / number, with truthiness
and `Number` coercion) are embedded as small inductive types.
-/

namespace BugBeheer

/-- Risk category banding, from the frontend function `riskCategory`:
score ≤ 4 gives "Laag", ≤ 8 "Gemiddeld", ≤ 12 "Hoog", otherwise "Kritiek"
(Dutch for Low / Medium / High / Critical). -/
def riskCategory (score : Int) : String :=
  if score ≤ 4 then "Laag"
  else if score ≤ 8 then "Gemiddeld"
  else if score ≤ 12 then "Hoog"
  else "Kritiek"

/-- Risk score, computed inline throughout the frontend as impact * likelihood. -/
def riskScore (impact likelihood : Int) : Int := impact * likelihood

/-- Severity rank of a category name, used to state that the banding is
monotone: Laag < Gemiddeld < Hoog < Kritiek. -/
def categoryRank (c : String) : Nat :=
  if c = "Laag" then 0 else if c = "Gemiddeld" then 1 else if c = "Hoog" then 2 else 3

theorem categoryRank_riskCategory_mono {s t : Int} (hst : s ≤ t) :
    categoryRank (riskCategory s) ≤ categoryRank (riskCategory t) := by
  unfold riskCategory
  split_ifs <;> first | decide | omega

/-- Claim C1: for impact and likelihood in [1,5] the risk score equals
impact × likelihood and lies in [1,25]; the category is exactly one of the
four fixed bands ("Laag" for score ≤ 4, "Gemiddeld" for 5–8, "Hoog" for
9–12, "Kritiek" for score ≥ 13); and the score-to-category mapping is
monotone non-decreasing in the score. -/
theorem claim_risk_scoring (impact likelihood : Int)
    (h1 : 1 ≤ impact) (h2 : impact ≤ 5) (h3 : 1 ≤ likelihood) (h4 : likelihood ≤ 5) :
    (1 ≤ riskScore impact likelihood ∧ riskScore impact likelihood ≤ 25) ∧
    (riskScore impact likelihood ≤ 4 → riskCategory (riskScore impact likelihood) = "Laag") ∧
    (5 ≤ riskScore impact likelihood → riskScore impact likelihood ≤ 8 →
      riskCategory (riskScore impact likelihood) = "Gemiddeld") ∧
    (9 ≤ riskScore impact likelihood → riskScore impact likelihood ≤ 12 →
      riskCategory (riskScore impact likelihood) = "Hoog") ∧
    (13 ≤ riskScore impact likelihood → riskCategory (riskScore impact likelihood) = "Kritiek") ∧
    riskCategory (riskScore impact likelihood) ∈ ["Laag", "Gemiddeld", "Hoog", "Kritiek"] ∧
    (∀ s t : Int, s ≤ t → categoryRank (riskCategory s) ≤ categoryRank (riskCategory t)) := by
  refine ⟨⟨?_, ?_⟩, ?_, ?_, ?_, ?_, ?_, ?_⟩
  · unfold riskScore; nlinarith
  · unfold riskScore; nlinarith
  · intro h; unfold riskCategory; split_ifs <;> first | rfl | omega
  · intro h5 h8; unfold riskCategory; split_ifs <;> first | rfl | omega
  · intro h9 h12; unfold riskCategory; split_ifs <;> first | rfl | omega
  · intro h13; unfold riskCategory; split_ifs <;> first | rfl | omega
  · unfold riskCategory; split_ifs <;> simp
  · exact fun s t hst => categoryRank_riskCategory_mono hst

/-- Witness for claim C1 at impact 2, likelihood 3. -/
theorem claim_risk_scoring_witness :
    (1 ≤ riskScore 2 3 ∧ riskScore 2 3 ≤ 25) ∧
    (riskScore 2 3 ≤ 4 → riskCategory (riskScore 2 3) = "Laag") ∧
    (5 ≤ riskScore 2 3 → riskScore 2 3 ≤ 8 → riskCategory (riskScore 2 3) = "Gemiddeld") ∧
    (9 ≤ riskScore 2 3 → riskScore 2 3 ≤ 12 → riskCategory (riskScore 2 3) = "Hoog") ∧
    (13 ≤ riskScore 2 3 → riskCategory (riskScore 2 3) = "Kritiek") ∧
    riskCategory (riskScore 2 3) ∈ ["Laag", "Gemiddeld", "Hoog", "Kritiek"] ∧
    (∀ s t : Int, s ≤ t → categoryRank (riskCategory s) ≤ categoryRank (riskCategory t)) :=
  claim_risk_scoring 2 3 (by decide) (by decide) (by decide) (by decide)

/-! ## JavaScript value embedding

Request body fields in the Express handlers are JSON values.  A field that
the handlers treat as text is embedded as `StrField` (missing/undefined,
null, or a string); a field that is fed to `Number(...)` is embedded as
`NumField` by its coercion result (missing, NaN, or an integer — `null`
coerces to `num 0`).  A stored number that may be NaN (update coerces
without a fallback) is embedded as `JNum`. -/

inductive StrField where
  | absent : StrField
  | null : StrField
  | str (s : String) : StrField
deriving DecidableEq, Repr

inductive NumField where
  | absent : NumField
  | nonNumeric : NumField
  | num (n : Int) : NumField
deriving DecidableEq, Repr

inductive JNum where
  | nan : JNum
  | num (n : Int) : JNum
deriving DecidableEq, Repr

/-- JavaScript `String.prototype.trim`: strip whitespace from both ends. -/
def jsTrim (s : String) : String :=
  String.mk (((s.data.dropWhile Char.isWhitespace).reverse.dropWhile Char.isWhitespace).reverse)

/-- `Number(x) || 1`: the coercion used by the create handler for impact and
likelihood — NaN (missing or non-numeric input) and 0 fall back to 1. -/
def numOr1 : NumField → Int
  | .absent => 1
  | .nonNumeric => 1
  | .num n => if n = 0 then 1 else n

/-- `req.body.x !== undefined ? Number(req.body.x) : existing.x`: the update
handler's coercion for impact and likelihood — no fallback, so a present
non-numeric value is stored as NaN. -/
def updateNum (f : NumField) (existing : JNum) : JNum :=
  match f with
  | .absent => existing
  | .nonNumeric => .nan
  | .num n => .num n

/-- ALLOWED_LABELS from `src/server.js`. -/
def ALLOWED_LABELS : List String :=
  ["Betaalopdrachten", "Betaalverzoeken Parro", "Betaalverzoeken Email",
   "TSO", "Accounts / login", "Beheer & Instellingen"]

/-- `label && !ALLOWED_LABELS.includes(label)`: a label field fails
validation exactly when it is a truthy (non-empty) string outside the
allowed set. -/
def labelInvalid : StrField → Bool
  | .str s => s ≠ "" && !(ALLOWED_LABELS.contains s)
  | _ => false

/-- `x || null` on a text field: empty string, null and undefined are all
normalized to the absent (null) stored value. -/
def strOrNull : StrField → Option String
  | .str s => if s = "" then none else some s
  | _ => none

/-! ## Bug records and the record store

The stored row, per the insert in the POST handler and the bugs table
schema.  The store is the list of rows, ordered by creation (list order). -/

structure Bug where
  id : String
  ticket : Option String
  description : String
  jiraLink : Option String
  impact : JNum
  likelihood : JNum
  label : Option String
  completedAt : Option Int
  createdAt : Int
  reference : Bool
deriving DecidableEq, Repr

/-- `getBug`: select the row with the given id (`.eq('id', id).single()`). -/
def getBug (store : List Bug) (id : String) : Option Bug :=
  store.find? (fun b => b.id == id)

/-- Replace the row with the given id (`update ... .eq('id', id)`). -/
def updateStore (store : List Bug) (id : String) (b : Bug) : List Bug :=
  store.map (fun c => if c.id == id then b else c)

/-- Error taxonomy of the HTTP handlers: 400, 401, 403, 404, 409. -/
inductive ApiErr where
  | validation (msg : String) : ApiErr
  | unauthorized : ApiErr
  | forbidden : ApiErr
  | notFound : ApiErr
  | conflict : ApiErr
deriving DecidableEq, Repr

/-! ## POST /api/bugs — create -/

structure CreateBody where
  ticket : StrField
  description : StrField
  jiraLink : StrField
  impact : NumField
  likelihood : NumField
  label : StrField
  reference : Option Bool
deriving DecidableEq, Repr

/-- The create handler (`src/server.js` lines 122–150).  The description
check is `!description || typeof description !== 'string'`: an absent,
null, or empty-string description is rejected, any other string — including
a whitespace-only one — passes.  `reference` is `!!reference` (absent and
null collapse to `none`, embedded as `Option Bool` with `getD false`). -/
def createBugHandler (body : CreateBody) (id : String) (now : Int) : Except ApiErr Bug :=
  match body.description with
  | .str d =>
    if d = "" then .error (.validation "description required")
    else if labelInvalid body.label then .error (.validation "invalid label")
    else .ok
      { id := id
        ticket := strOrNull (match body.ticket with | .str s => .str (jsTrim s) | _ => .str "")
        description := jsTrim d
        jiraLink := strOrNull body.jiraLink
        impact := .num (numOr1 body.impact)
        likelihood := .num (numOr1 body.likelihood)
        label := strOrNull body.label
        completedAt := none
        createdAt := now
        reference := body.reference.getD false }
  | _ => .error (.validation "description required")

/-! ## PUT /api/bugs/:id — update -/

/-- The `completedAt` body field: undefined, null, a number, or anything
else (which fails the `typeof ... !== 'number'` validation). -/
inductive CompletedAtField where
  | absent : CompletedAtField
  | null : CompletedAtField
  | num (t : Int) : CompletedAtField
  | invalid : CompletedAtField
deriving DecidableEq, Repr

structure UpdateBody where
  ticket : StrField
  description : StrField
  jiraLink : StrField
  impact : NumField
  likelihood : NumField
  label : StrField
  reference : Option Bool
  completedAt : CompletedAtField
deriving DecidableEq, Repr

/-- The `updated` object built by the PUT handler (lines 170–180) from the
existing row and the request body.  Fields omitted from the body keep the
prior value; `id` and `createdAt` are not part of the update set and are
preserved by the store. -/
def applyUpdate (existing : Bug) (body : UpdateBody) : Bug :=
  let incomingTicket :=
    match body.ticket with
    | .str s => jsTrim s
    | _ => existing.ticket.getD ""
  { id := existing.id
    ticket := if incomingTicket = "" then none else some incomingTicket
    description :=
      match body.description with
      | .str d => if d = "" then existing.description else jsTrim d
      | _ => existing.description
    jiraLink :=
      match body.jiraLink with
      | .absent => existing.jiraLink
      | f => strOrNull f
    impact := updateNum body.impact existing.impact
    likelihood := updateNum body.likelihood existing.likelihood
    label :=
      match body.label with
      | .absent => existing.label
      | f => strOrNull f
    completedAt :=
      match body.completedAt with
      | .absent => existing.completedAt
      | .null => none
      | .num t => some t
      | .invalid => existing.completedAt
    createdAt := existing.createdAt
    reference := body.reference.getD existing.reference }

/-- The PUT handler (`src/server.js` lines 160–187): label validation, then
completedAt type validation, then existence, then the field merge. -/
def updateBugHandler (store : List Bug) (id : String) (body : UpdateBody) :
    Except ApiErr Bug × List Bug :=
  if labelInvalid body.label then (.error (.validation "invalid label"), store)
  else if body.completedAt = .invalid then (.error (.validation "invalid completedAt"), store)
  else
    match getBug store id with
    | none => (.error .notFound, store)
    | some existing =>
      let updated := applyUpdate existing body
      (.ok updated, updateStore store id updated)

/-! ## POST /api/bugs/:id/complete and DELETE handlers -/

/-- JavaScript truthiness of a stored completedAt value: `if (bug.completedAt)`
is false for null and for the number 0. -/
def truthyCompletedAt : Option Int → Bool
  | some t => t != 0
  | none => false

/-- The complete handler (`src/server.js` lines 190–202): 404 if missing,
403 if reference, 409 if completedAt is truthy; otherwise set completedAt
to the current time. -/
def completeBugHandler (store : List Bug) (id : String) (now : Int) :
    Except ApiErr Bug × List Bug :=
  match getBug store id with
  | none => (.error .notFound, store)
  | some bug =>
    if bug.reference then (.error .forbidden, store)
    else if truthyCompletedAt bug.completedAt then (.error .conflict, store)
    else
      let updated := { bug with completedAt := some now }
      (.ok updated, updateStore store id updated)

/-- The single-delete handler (`src/server.js` lines 205–211): 404 if
missing, 403 if reference, otherwise remove the row. -/
def deleteBugHandler (store : List Bug) (id : String) :
    Except ApiErr Unit × List Bug :=
  match getBug store id with
  | none => (.error .notFound, store)
  | some bug =>
    if bug.reference then (.error .forbidden, store)
    else (.ok (), store.filter (fun b => !(b.id == id)))

/-- The bulk-delete handler (`src/server.js` lines 214–219): if every row is
a reference row (the preserved set equals the whole collection) fail with
403 and delete nothing; otherwise delete every non-reference row
(`deleteAllNonReference`) and report the preserved count in a header. -/
def bulkDeleteHandler (store : List Bug) : Except ApiErr Nat × List Bug :=
  let preserved := store.filter (fun b => b.reference)
  if preserved.length = store.length then (.error .forbidden, store)
  else (.ok preserved.length, store.filter (fun b => b.reference))

/-! ## Authentication -/

/-- `authAllowedPath` from `src/server.js`: OPTIONS requests, the login
route and the health probe bypass the auth middleware. -/
def authAllowedPath (method path : String) : Bool :=
  method == "OPTIONS" || path == "/api/login" || path == "/api/health"

/-- `authMiddleware` (lines 17–22): a request proceeds when its path is
allowed, or when it carries an `Authorization: Bearer <token>` header whose
token passes JWT verification (abstracted as the predicate `verifyOk`). -/
def authMiddleware (method path : String) (authHeader : Option String)
    (verifyOk : String → Bool) : Bool :=
  if authAllowedPath method path then true
  else
    match authHeader with
    | none => false
    | some a => a.startsWith "Bearer " && verifyOk (a.drop 7)

/-- A gated API request: the middleware runs before every bug route, so an
unauthorized request is answered with 401 and never reaches the store. -/
def gatedRequest {α : Type} (method path : String) (authHeader : Option String)
    (verifyOk : String → Bool) (handler : List Bug → Except ApiErr α × List Bug)
    (store : List Bug) : Except ApiErr α × List Bug :=
  if authMiddleware method path authHeader verifyOk then handler store
  else (.error .unauthorized, store)

/-- The login credential check (`src/server.js` line 60):
`username === EXPECT_USER && password === EXPECT_PASS`, where every operand
is a string or undefined (`none`). -/
def loginCheck (expectUser expectPass username password : Option String) : Bool :=
  username == expectUser && password == expectPass

/-- The login handler (lines 58–65): issue a signed token on a successful
check, 401 otherwise. -/
def loginHandler (expectUser expectPass username password : Option String) :
    Except ApiErr String :=
  if loginCheck expectUser expectPass username password then .ok "token"
  else .error .unauthorized

/-! ## Frontend session gate -/

/-- SESSION_MS from the frontend: 5 minutes in milliseconds. -/
def SESSION_MS : Int := 5 * 60 * 1000

/-- The session restore / re-validation check (frontend lines 90–99): with a
stored user and login timestamp `ts`, at wall-clock `now` the session is kept
iff the user is present, `ts` is truthy, and `now - ts ≤ SESSION_MS`;
otherwise the stored session is removed.  Returns the resulting auth user
and whether local storage was cleared. -/
def restoreSession (storedUser : Option String) (ts : Int) (now : Int) :
    Option String × Bool :=
  match storedUser with
  | none => (none, true)
  | some u => if ts = 0 ∨ now - ts > SESSION_MS then (none, true) else (some u, false)

/-! ## Frontend records and view composition -/

/-- The frontend `BugRecord` interface (a mapped database row). -/
structure BugRecord where
  id : String
  ticket : Option String
  description : String
  jiraLink : Option String
  impact : Int
  likelihood : Int
  label : Option String
  createdAt : Int
  completedAt : Option Int
  reference : Bool
deriving DecidableEq, Repr

inductive ViewTab where
  | openTab : ViewTab
  | completedTab : ViewTab
deriving DecidableEq, Repr

inductive SortDir where
  | asc : SortDir
  | desc : SortDir
deriving DecidableEq, Repr

/-- The risk score of a record, `b.impact * b.likelihood`. -/
def bugScore (b : BugRecord) : Int := b.impact * b.likelihood

/-- The status filter of `displayedBugs`:
`viewTab === 'open' ? !b.completedAt : !!b.completedAt`. -/
def statusMatches (tab : ViewTab) (b : BugRecord) : Bool :=
  match tab with
  | .openTab => !(truthyCompletedAt b.completedAt)
  | .completedTab => truthyCompletedAt b.completedAt

/-- The label filter of `displayedBugs`:
`labelFilters.length === 0 || (b.label && labelFilters.includes(b.label))`. -/
def labelMatches (labelFilters : List String) (b : BugRecord) : Bool :=
  labelFilters.isEmpty ||
    (match b.label with
     | some l => l ≠ "" && labelFilters.contains l
     | none => false)

/-- `displayedBugs` (frontend lines 350–356): the bug set filtered by the
active status tab and by the selected labels. -/
def displayedBugs (bugs : List BugRecord) (tab : ViewTab) (labelFilters : List String) :
    List BugRecord :=
  bugs.filter (fun b => statusMatches tab b && labelMatches labelFilters b)

/-- The comparator of `sortedBugs` as a boolean order: ascending keeps `a`
before `b` when `sa - sb ≤ 0`, descending when `sb - sa ≤ 0`. -/
def scoreLe (dir : SortDir) (a b : BugRecord) : Bool :=
  match dir with
  | .asc => decide (bugScore a ≤ bugScore b)
  | .desc => decide (bugScore b ≤ bugScore a)

/-- `sortedBugs` (frontend lines 368–378): the displayed set, stably sorted
by risk score when score sorting is active (`Array.prototype.sort` is
stable; the stable sort is embedded as `List.mergeSort`). -/
def sortedBugs (displayed : List BugRecord) (sortOnScore : Bool) (dir : SortDir) :
    List BugRecord :=
  if sortOnScore then displayed.mergeSort (scoreLe dir) else displayed

theorem scoreLe_trans (dir : SortDir) : ∀ a b c : BugRecord,
    scoreLe dir a b = true → scoreLe dir b c = true → scoreLe dir a c = true := by
  intro a b c hab hbc
  cases dir <;> simp only [scoreLe, decide_eq_true_eq] at * <;> omega

theorem scoreLe_total (dir : SortDir) : ∀ a b : BugRecord,
    (scoreLe dir a b || scoreLe dir b a) = true := by
  intro a b
  cases dir <;> simp only [scoreLe, Bool.or_eq_true, decide_eq_true_eq] <;> omega

/-- Stability of the score sort: the subsequence of records with any fixed
score is unchanged by the sort. -/
theorem filter_mergeSort_scoreLe (dir : SortDir) (l : List BugRecord) (k : Int) :
    (l.mergeSort (scoreLe dir)).filter (fun b => bugScore b == k) =
      l.filter (fun b => bugScore b == k) := by
  set p : BugRecord → Bool := fun b => bugScore b == k with hp
  have hpair : (l.filter p).Pairwise (fun a b => scoreLe dir a b = true) := by
    apply List.pairwise_of_forall_mem_list
    intro a ha b hb
    have ha2 := (List.mem_filter.mp ha).2
    have hb2 := (List.mem_filter.mp hb).2
    simp only [hp, beq_iff_eq] at ha2 hb2
    cases dir <;> simp only [scoreLe, decide_eq_true_eq] <;> omega
  have hsub : (l.filter p).Sublist (l.mergeSort (scoreLe dir)) :=
    List.sublist_mergeSort (scoreLe_trans dir) (scoreLe_total dir) hpair (List.filter_sublist l)
  have hsub2 : (l.filter p).Sublist ((l.mergeSort (scoreLe dir)).filter p) := by
    have heq : (l.filter p).filter p = l.filter p := by
      rw [List.filter_eq_self]
      intro a ha
      exact (List.mem_filter.mp ha).2
    have h2 := List.Sublist.filter p hsub
    rwa [heq] at h2
  have hlen : ((l.mergeSort (scoreLe dir)).filter p).length = (l.filter p).length :=
    ((List.mergeSort_perm l (scoreLe dir)).filter p).length_eq
  exact (List.Sublist.eq_of_length hsub2 hlen.symm).symm

/-! ## Claim C2 — create validation -/

theorem labelInvalid_iff (f : StrField) :
    labelInvalid f = true ↔ ∃ s, f = .str s ∧ s ≠ "" ∧ ¬ s ∈ ALLOWED_LABELS := by
  cases f <;> simp [labelInvalid, List.elem_iff]

/-- Concrete create request whose description is whitespace only. -/
def wsBody : CreateBody :=
  { ticket := .absent, description := .str "  ", jiraLink := .absent,
    impact := .absent, likelihood := .absent, label := .absent, reference := none }

/-- Claim C2 counterexample: the create handler accepts the whitespace-only
description "  " (a non-empty string is truthy, so `!description` does not
fire) and stores the empty string after trimming, whereas the claim says
such a request fails validation. -/
theorem claim_create_validation_counterexample :
    createBugHandler wsBody "id1" 1000 =
      .ok { id := "id1", ticket := none, description := "", jiraLink := none,
            impact := .num 1, likelihood := .num 1, label := none,
            completedAt := none, createdAt := 1000, reference := false } := by
  rfl

/-- Claim C2 (amended): create fails with a validation error exactly when
the description is absent, null, or the empty string — so a whitespace-only
description such as "  " is accepted and stored as the empty string — or
when a non-empty label outside the fixed allowed set of 6 strings is
present; on success the stored description is the trimmed input and empty
optional text fields (ticket, jiraLink, label) are normalized to absent. -/
theorem claim_create_validation (body : CreateBody) (id : String) (now : Int) :
    ((createBugHandler body id now).isOk = false ↔
      body.description = .absent ∨ body.description = .null ∨ body.description = .str "" ∨
      (∃ s, body.label = .str s ∧ s ≠ "" ∧ ¬ s ∈ ALLOWED_LABELS)) ∧
    (∀ d b, body.description = .str d → createBugHandler body id now = .ok b →
      b.description = jsTrim d) ∧
    (∀ b, createBugHandler body id now = .ok b →
      ((body.ticket = .str "" ∨ body.ticket = .absent ∨ body.ticket = .null) → b.ticket = none) ∧
      ((body.jiraLink = .str "" ∨ body.jiraLink = .absent ∨ body.jiraLink = .null) →
        b.jiraLink = none) ∧
      ((body.label = .str "" ∨ body.label = .absent ∨ body.label = .null) → b.label = none)) := by
  refine ⟨?_, ?_, ?_⟩
  · rw [← labelInvalid_iff]
    cases hd : body.description with
    | absent => simp [createBugHandler, hd, Except.isOk, Except.toBool, Except.toBool]
    | null => simp [createBugHandler, hd, Except.isOk, Except.toBool, Except.toBool]
    | str s =>
      by_cases hs : s = ""
      · subst hs; simp [createBugHandler, hd, Except.isOk, Except.toBool, Except.toBool]
      · by_cases hl : labelInvalid body.label = true
        · simp [createBugHandler, hd, hs, hl, Except.isOk, Except.toBool, Except.toBool]
        · simp [createBugHandler, hd, hs, hl, Except.isOk, Except.toBool, Except.toBool]
  · intro d b hd hok
    rw [createBugHandler, hd] at hok
    by_cases hs : d = ""
    · simp [hs] at hok
    · by_cases hl : labelInvalid body.label = true <;> simp [hs, hl] at hok
      rw [← hok]
  · intro b hok
    rw [createBugHandler] at hok
    cases hd : body.description with
    | absent => rw [hd] at hok; exact absurd hok (by simp)
    | null => rw [hd] at hok; exact absurd hok (by simp)
    | str s =>
      rw [hd] at hok
      by_cases hs : s = ""
      · simp [hs] at hok
      · by_cases hl : labelInvalid body.label = true <;> simp [hs, hl] at hok
        refine ⟨?_, ?_, ?_⟩
        · rintro (ht | ht | ht) <;> rw [← hok] <;> simp [ht, strOrNull, jsTrim]
        · rintro (ht | ht | ht) <;> rw [← hok] <;> simp [ht, strOrNull]
        · rintro (ht | ht | ht) <;> rw [← hok] <;> simp [ht, strOrNull]

/-- Concrete valid create request used by the C2 witness. -/
def demoCreateBody : CreateBody :=
  { ticket := .str "", description := .str "  fix X  ", jiraLink := .str "",
    impact := .num 3, likelihood := .num 4, label := .str "TSO", reference := none }

/-- The record the create handler stores for `demoCreateBody`. -/
def demoCreateBug : Bug :=
  { id := "idw", ticket := none, description := "fix X", jiraLink := none,
    impact := .num 3, likelihood := .num 4, label := some "TSO",
    completedAt := none, createdAt := 5, reference := false }

/-- Witness for claim C2: "  fix X  " is accepted, stored trimmed as
"fix X", and the empty ticket and jiraLink are normalized to absent. -/
theorem claim_create_validation_witness :
    demoCreateBug.description = "fix X" ∧ demoCreateBug.ticket = none ∧
      demoCreateBug.jiraLink = none := by
  have h := claim_create_validation demoCreateBody "idw" 5
  have hok : createBugHandler demoCreateBody "idw" 5 = .ok demoCreateBug := by rfl
  have hdesc := h.2.1 "  fix X  " demoCreateBug rfl hok
  have hnorm := h.2.2 demoCreateBug hok
  exact ⟨by rw [hdesc]; decide, hnorm.1 (Or.inl rfl), hnorm.2.1 (Or.inl rfl)⟩

/-! ## Claim C3 — reference records are protected -/

/-- Claim C3: completing or deleting a record whose reference flag is set
always fails with Forbidden, regardless of any other state, and leaves the
store unchanged. -/
theorem claim_reference_protected (store : List Bug) (id : String) (now : Int) (bug : Bug)
    (hget : getBug store id = some bug) (href : bug.reference = true) :
    completeBugHandler store id now = (.error .forbidden, store) ∧
    deleteBugHandler store id = (.error .forbidden, store) := by
  unfold completeBugHandler deleteBugHandler
  rw [hget]
  simp [href]

/-- A completed reference record: reference protection must still win. -/
def refBug : Bug :=
  { id := "r1", ticket := none, description := "anchor", jiraLink := none,
    impact := .num 5, likelihood := .num 5, label := none,
    completedAt := some 42, createdAt := 1, reference := true }

/-- Witness for claim C3 on a one-record store holding a reference record. -/
theorem claim_reference_protected_witness :
    completeBugHandler [refBug] "r1" 10 = (.error .forbidden, [refBug]) ∧
    deleteBugHandler [refBug] "r1" = (.error .forbidden, [refBug]) :=
  claim_reference_protected [refBug] "r1" 10 refBug (by rfl) (by rfl)

/-! ## Claim C10 — login credential check -/

/-- Claim C10: the login check succeeds exactly when the submitted username
and password are strictly equal to the configured expected values; with
unconfigured credentials (both undefined) a request omitting both fields
passes the check and is issued a token. -/
theorem claim_login_check :
    (∀ eu ep u p : Option String, loginCheck eu ep u p = true ↔ (u = eu ∧ p = ep)) ∧
    loginCheck none none none none = true ∧
    (∀ eu ep u p : Option String, (loginHandler eu ep u p).isOk = loginCheck eu ep u p) ∧
    (loginHandler none none none none).isOk = true := by
  refine ⟨?_, rfl, ?_, rfl⟩
  · intro eu ep u p; simp [loginCheck]
  · intro eu ep u p
    unfold loginHandler
    split_ifs with h <;> simp [Except.isOk, Except.toBool, h]

/-- Witness for claim C10 at configured credentials matching the request. -/
theorem claim_login_check_witness :
    loginCheck (some "admin") (some "pw") (some "admin") (some "pw") = true :=
  (claim_login_check.1 (some "admin") (some "pw") (some "admin") (some "pw")).mpr ⟨rfl, rfl⟩

/-! ## Claim C4 — complete is one-shot (with a truthiness caveat) -/

theorem getBug_id (store : List Bug) (id : String) (bug : Bug)
    (hget : getBug store id = some bug) : bug.id = id := by
  have h := List.find?_some hget
  simpa using h

theorem getBug_updateStore (store : List Bug) (id : String) (b bug : Bug)
    (hget : getBug store id = some bug) (hid : b.id = id) :
    getBug (updateStore store id b) id = some b := by
  have hb : (b.id == id) = true := by simp [hid]
  induction store with
  | nil => simp [getBug] at hget
  | cons c cs ih =>
    simp only [getBug, updateStore, List.map_cons] at hget ⊢
    by_cases hc : (c.id == id) = true
    · rw [if_pos hc]
      exact List.find?_cons_of_pos _ hb
    · rw [if_neg hc, List.find?_cons_of_neg _ (by simp [hc])]
      rw [List.find?_cons_of_neg _ (by simp [hc])] at hget
      exact ih hget

/-- A non-reference record whose completedAt was explicitly set to 0. -/
def zeroStampBug : Bug :=
  { id := "z1", ticket := none, description := "zero stamp", jiraLink := none,
    impact := .num 1, likelihood := .num 1, label := none,
    completedAt := some 0, createdAt := 0, reference := false }

/-- Claim C4 counterexample: a record whose completedAt is already set (to
the number 0, which a PUT request may store) is completed again without a
Conflict — `if (bug.completedAt)` is a truthiness test and 0 is falsy —
whereas the claim says completion fails with Conflict whenever completedAt
is already set. -/
theorem claim_complete_lifecycle_counterexample :
    completeBugHandler [zeroStampBug] "z1" 777 =
      (.ok { zeroStampBug with completedAt := some 777 },
       [{ zeroStampBug with completedAt := some 777 }]) := by
  rfl

/-- Claim C4 (amended): complete fails with NotFound when the id is
unknown, with Forbidden on a reference record, and with Conflict when
completedAt is already set to a nonzero timestamp (a stored 0 is falsy and
is treated as not completed); on success it sets completedAt to the current
time.  Completing twice from open with a nonzero clock: the first call
succeeds and sets completedAt, the second fails with Conflict and leaves
the store unchanged. -/
theorem claim_complete_lifecycle (store : List Bug) (id : String) (now : Int) :
    (getBug store id = none → completeBugHandler store id now = (.error .notFound, store)) ∧
    (∀ bug, getBug store id = some bug → bug.reference = true →
      completeBugHandler store id now = (.error .forbidden, store)) ∧
    (∀ bug t, getBug store id = some bug → bug.reference = false → bug.completedAt = some t →
      t ≠ 0 → completeBugHandler store id now = (.error .conflict, store)) ∧
    (∀ bug, getBug store id = some bug → bug.reference = false → bug.completedAt = none →
      completeBugHandler store id now =
        (.ok { bug with completedAt := some now },
         updateStore store id { bug with completedAt := some now })) ∧
    (∀ bug, getBug store id = some bug → bug.reference = false → bug.completedAt = none →
      now ≠ 0 → ∀ now2,
        completeBugHandler (completeBugHandler store id now).2 id now2 =
          (.error .conflict, (completeBugHandler store id now).2)) := by
  refine ⟨?_, ?_, ?_, ?_, ?_⟩
  · intro h; unfold completeBugHandler; rw [h]
  · intro bug hget href; unfold completeBugHandler; rw [hget]; simp [href]
  · intro bug t hget href hca ht
    unfold completeBugHandler; rw [hget]; simp [href, hca, truthyCompletedAt, ht]
  · intro bug hget href hca
    unfold completeBugHandler; rw [hget]; simp [href, hca, truthyCompletedAt]
  · intro bug hget href hca hnow now2
    have hid : bug.id = id := getBug_id store id bug hget
    have hstep : completeBugHandler store id now =
        (.ok { bug with completedAt := some now },
         updateStore store id { bug with completedAt := some now }) := by
      unfold completeBugHandler; rw [hget]; simp [href, hca, truthyCompletedAt]
    rw [hstep]
    have hget2 : getBug (updateStore store id { bug with completedAt := some now }) id =
        some { bug with completedAt := some now } :=
      getBug_updateStore store id _ bug hget hid
    unfold completeBugHandler
    rw [hget2]
    simp [href, truthyCompletedAt, hnow]

/-- An open, non-reference record for the C4 witness. -/
def openBug : Bug :=
  { id := "c1", ticket := none, description := "open", jiraLink := none,
    impact := .num 2, likelihood := .num 3, label := none,
    completedAt := none, createdAt := 0, reference := false }

/-- `openBug` after completion at time 100. -/
def doneBug : Bug := { openBug with completedAt := some 100 }

/-- Witness for claim C4: completing `openBug` at time 100 succeeds and
sets completedAt; completing again fails with Conflict, store unchanged. -/
theorem claim_complete_lifecycle_witness :
    completeBugHandler [openBug] "c1" 100 = (.ok doneBug, [doneBug]) ∧
    completeBugHandler [doneBug] "c1" 200 = (.error .conflict, [doneBug]) := by
  constructor
  · exact (claim_complete_lifecycle [openBug] "c1" 100).2.2.2.1 openBug (by rfl) rfl rfl
  · exact (claim_complete_lifecycle [doneBug] "c1" 200).2.2.1 doneBug 100 (by rfl) rfl rfl
      (by decide)

/-! ## Claim C5 — bulk delete -/

theorem filter_reference_length (l : List Bug) :
    (l.filter (fun b => b.reference)).length + (l.filter (fun b => !b.reference)).length =
      l.length := by
  induction l with
  | nil => rfl
  | cons c cs ih =>
    by_cases hc : c.reference <;> simp [List.filter_cons, hc] <;> omega

/-- Claim C5: bulk delete fails with Forbidden, deleting nothing, exactly
when the number of reference records equals the total count; otherwise it
deletes every non-reference record, preserves every reference record, and
reports the count of preserved reference records. -/
theorem claim_bulk_delete (store : List Bug) :
    (bulkDeleteHandler store = (.error .forbidden, store) ↔
      (store.filter (fun b => b.reference)).length = store.length) ∧
    ((store.filter (fun b => b.reference)).length ≠ store.length →
      bulkDeleteHandler store =
        (.ok (store.filter (fun b => b.reference)).length,
         store.filter (fun b => b.reference)) ∧
      (∀ b ∈ store, b.reference = true → b ∈ (bulkDeleteHandler store).2) ∧
      (∀ b ∈ (bulkDeleteHandler store).2, b.reference = true) ∧
      store.length - (bulkDeleteHandler store).2.length =
        (store.filter (fun b => !b.reference)).length) := by
  constructor
  · unfold bulkDeleteHandler
    by_cases hc : (store.filter (fun b => b.reference)).length = store.length <;> simp [hc]
  · intro hne
    have hres : bulkDeleteHandler store =
        (.ok (store.filter (fun b => b.reference)).length,
         store.filter (fun b => b.reference)) := by
      unfold bulkDeleteHandler; simp [hne]
    refine ⟨hres, ?_, ?_, ?_⟩
    · intro b hb href
      rw [hres]
      exact List.mem_filter.mpr ⟨hb, by simp [href]⟩
    · intro b hb
      rw [hres] at hb
      simpa using (List.mem_filter.mp hb).2
    · rw [hres]
      have h := filter_reference_length store
      change store.length - (store.filter (fun b => b.reference)).length = _
      omega

/-- A five-record store, three of them reference records. -/
def mkBug (id : String) (ref : Bool) : Bug :=
  { id := id, ticket := none, description := "b", jiraLink := none,
    impact := .num 2, likelihood := .num 2, label := none,
    completedAt := none, createdAt := 0, reference := ref }

def demoStore5 : List Bug :=
  [mkBug "d1" true, mkBug "d2" false, mkBug "d3" true, mkBug "d4" false, mkBug "d5" true]

/-- Witness for claim C5: with 3 reference records out of 5, bulk delete
keeps exactly the 3 reference records, deletes the other 2, and reports a
preserved count of 3. -/
theorem claim_bulk_delete_witness :
    bulkDeleteHandler demoStore5 = (.ok 3, [mkBug "d1" true, mkBug "d3" true, mkBug "d5" true]) ∧
    demoStore5.length - (bulkDeleteHandler demoStore5).2.length = 2 := by
  have h := (claim_bulk_delete demoStore5).2 (by decide)
  exact ⟨h.1, by rw [h.1]; decide⟩

/-! ## Claim C6 — numeric coercion of impact and likelihood -/

/-- On a valid body the PUT handler stores exactly the merge of the
existing row with the body. -/
theorem updateBugHandler_ok (store : List Bug) (id : String) (body : UpdateBody) (existing : Bug)
    (hl : labelInvalid body.label = false) (hca : body.completedAt ≠ .invalid)
    (hget : getBug store id = some existing) :
    updateBugHandler store id body =
      (.ok (applyUpdate existing body), updateStore store id (applyUpdate existing body)) := by
  unfold updateBugHandler
  rw [if_neg (by simp [hl]), if_neg hca, hget]

/-- A create request carrying the out-of-range impact 7. -/
def impact7Body : CreateBody :=
  { ticket := .absent, description := .str "bad range", jiraLink := .absent,
    impact := .num 7, likelihood := .num 3, label := .absent, reference := none }

/-- The record the create handler stores for `impact7Body`. -/
def impact7Bug : Bug :=
  { id := "id6", ticket := none, description := "bad range", jiraLink := none,
    impact := .num 7, likelihood := .num 3, label := none,
    completedAt := none, createdAt := 0, reference := false }

/-- Claim C6 counterexample: the create handler performs no range check, so
a numeric impact of 7 is stored as 7, outside the claimed range 1–5. -/
theorem claim_numeric_coercion_counterexample :
    createBugHandler impact7Body "id6" 0 = .ok impact7Bug ∧
    impact7Bug.impact = JNum.num 7 ∧ ¬ ((7 : Int) ≤ 5) := by
  exact ⟨rfl, rfl, by decide⟩

/-- Claim C6 (amended): create stores `Number(x) || 1` for impact and
likelihood — missing, non-numeric and zero inputs default to 1, but any
other numeric input (such as 7, or a negative number) is stored unchanged
with no 1–5 range check; update stores `Number(x)` when the field is
present with no default at all — a present non-numeric value is stored as
NaN — and keeps the prior value when the field is absent. -/
theorem claim_numeric_coercion :
    (∀ body id now b, createBugHandler body id now = Except.ok b →
      b.impact = .num (numOr1 body.impact) ∧ b.likelihood = .num (numOr1 body.likelihood)) ∧
    numOr1 .absent = 1 ∧ numOr1 .nonNumeric = 1 ∧ numOr1 (.num 0) = 1 ∧
    (∀ n : Int, n ≠ 0 → numOr1 (.num n) = n) ∧
    (∀ existing body,
      (applyUpdate existing body).impact = updateNum body.impact existing.impact ∧
      (applyUpdate existing body).likelihood = updateNum body.likelihood existing.likelihood) ∧
    (∀ e, updateNum .nonNumeric e = .nan) ∧
    (∀ e, updateNum .absent e = e) ∧
    (∀ e n, updateNum (.num n) e = .num n) := by
  refine ⟨?_, rfl, rfl, rfl, ?_, ?_, fun e => rfl, fun e => rfl, fun e n => rfl⟩
  · intro body id now b hok
    rw [createBugHandler] at hok
    cases hd : body.description with
    | absent => rw [hd] at hok; exact absurd hok (by simp)
    | null => rw [hd] at hok; exact absurd hok (by simp)
    | str s =>
      rw [hd] at hok
      by_cases hs : s = ""
      · simp [hs] at hok
      · by_cases hlb : labelInvalid body.label = true <;> simp [hs, hlb] at hok
        rw [← hok]
        exact ⟨rfl, rfl⟩
  · intro n hn; simp [numOr1, hn]
  · intro existing body; exact ⟨rfl, rfl⟩

/-- Witness for claim C6: an absent impact defaults to 1 on create, and an
update carrying a non-numeric impact stores NaN. -/
theorem claim_numeric_coercion_witness :
    demoCreateBug.impact = JNum.num (numOr1 (NumField.num 3)) ∧
    numOr1 .absent = 1 ∧ updateNum .nonNumeric (JNum.num 2) = .nan := by
  have h := claim_numeric_coercion
  exact ⟨(h.1 demoCreateBody "idw" 5 demoCreateBug (by rfl)).1, h.2.1, h.2.2.2.2.2.2.1 (JNum.num 2)⟩

/-! ## Claim C7 — completedAt lifecycle -/

/-- A completed non-reference record. -/
def completedBug : Bug :=
  { id := "u1", ticket := none, description := "done", jiraLink := none,
    impact := .num 2, likelihood := .num 2, label := none,
    completedAt := some 5, createdAt := 1, reference := false }

/-- A PUT body whose only present field is `completedAt: null`. -/
def nullCABody : UpdateBody :=
  { ticket := .absent, description := .absent, jiraLink := .absent, impact := .absent,
    likelihood := .absent, label := .absent, reference := none, completedAt := .null }

/-- `completedBug` after the null-completedAt update: reopened. -/
def reopenedBug : Bug := { completedBug with completedAt := none }

/-- Claim C7 counterexample: the PUT handler explicitly allows
`completedAt: null` (its validation admits null), so an update can reset a
set completedAt back to absent, whereas the claim says completedAt is never
reset once set. -/
theorem claim_completedAt_never_reset_counterexample :
    completedBug.completedAt = some 5 ∧
    updateBugHandler [completedBug] "u1" nullCABody = (.ok reopenedBug, [reopenedBug]) ∧
    reopenedBug.completedAt = none := by
  exact ⟨rfl, rfl, rfl⟩

/-- Claim C7 (amended): completedAt is absent at creation and set by
completion; an update that omits the field preserves it; but an update may
explicitly supply a numeric completedAt or reset it to absent with null, so
a set completedAt can become absent again through update. -/
theorem claim_completedAt_lifecycle :
    (∀ body id now b, createBugHandler body id now = Except.ok b → b.completedAt = none) ∧
    (∀ store id now bug, getBug store id = some bug → bug.reference = false →
      bug.completedAt = none →
      (completeBugHandler store id now).1 = .ok { bug with completedAt := some now }) ∧
    (∀ existing body, body.completedAt = .absent →
      (applyUpdate existing body).completedAt = existing.completedAt) ∧
    (∀ existing body t, body.completedAt = .num t →
      (applyUpdate existing body).completedAt = some t) ∧
    (∀ existing body, body.completedAt = .null →
      (applyUpdate existing body).completedAt = none) := by
  refine ⟨?_, ?_, ?_, ?_, ?_⟩
  · intro body id now b hok
    rw [createBugHandler] at hok
    cases hd : body.description with
    | absent => rw [hd] at hok; exact absurd hok (by simp)
    | null => rw [hd] at hok; exact absurd hok (by simp)
    | str s =>
      rw [hd] at hok
      by_cases hs : s = ""
      · simp [hs] at hok
      · by_cases hlb : labelInvalid body.label = true <;> simp [hs, hlb] at hok
        rw [← hok]
  · intro store id now bug hget href hca
    unfold completeBugHandler
    rw [hget]
    simp [href, truthyCompletedAt, hca]
  · intro existing body hca; simp [applyUpdate, hca]
  · intro existing body t hca; simp [applyUpdate, hca]
  · intro existing body hca; simp [applyUpdate, hca]

/-- Witness for claim C7: creation starts open, completion sets the stamp,
an update omitting the field preserves it and a null update clears it. -/
theorem claim_completedAt_lifecycle_witness :
    demoCreateBug.completedAt = none ∧
    (completeBugHandler [openBug] "c1" 100).1 = .ok doneBug ∧
    (applyUpdate completedBug nullCABody).completedAt = none := by
  have h := claim_completedAt_lifecycle
  exact ⟨h.1 demoCreateBody "idw" 5 demoCreateBug (by rfl),
         h.2.1 [openBug] "c1" 100 openBug (by rfl) rfl rfl,
         h.2.2.2.2 completedBug nullCABody rfl⟩

/-! ## Claim C8 — session gate -/

/-- Claim C8: a gated request without a credential is answered with 401 and
never reaches or changes the record store (for any handler and any store);
the client session duration is fixed at 5 minutes, so a session started at
`ts` is still valid at `ts + SESSION_MS - 1` and at `ts + SESSION_MS + 1`
the session check fails and clears the stored session. -/
theorem claim_session_gate :
    (∀ (α : Type) (method path : String) (store : List Bug)
        (handler : List Bug → Except ApiErr α × List Bug) (verifyOk : String → Bool),
      authAllowedPath method path = false →
      gatedRequest method path none verifyOk handler store = (.error .unauthorized, store)) ∧
    SESSION_MS = 5 * 60 * 1000 ∧
    (∀ u ts, ts ≠ 0 → restoreSession (some u) ts (ts + SESSION_MS - 1) = (some u, false)) ∧
    (∀ u ts, restoreSession (some u) ts (ts + SESSION_MS + 1) = (none, true)) := by
  refine ⟨?_, rfl, ?_, ?_⟩
  · intro α method path store handler verifyOk hpath
    unfold gatedRequest authMiddleware
    rw [if_neg (by simp [hpath])]
  · intro u ts hts
    have hS : SESSION_MS = 300000 := rfl
    have hcond : ¬ (ts = 0 ∨ ts + SESSION_MS - 1 - ts > SESSION_MS) := by
      push_neg
      exact ⟨hts, by omega⟩
    simp only [restoreSession]
    rw [if_neg hcond]
  · intro u ts
    have hS : SESSION_MS = 300000 := rfl
    simp only [restoreSession]
    rw [if_pos (Or.inr (by omega))]

/-- Witness for claim C8 at the bug-list route and a session started at
time 1000. -/
theorem claim_session_gate_witness :
    gatedRequest "GET" "/api/bugs" none (fun _ => true) bulkDeleteHandler [refBug] =
      (.error .unauthorized, [refBug]) ∧
    restoreSession (some "admin") 1000 (1000 + SESSION_MS - 1) = (some "admin", false) ∧
    restoreSession (some "admin") 1000 (1000 + SESSION_MS + 1) = (none, true) := by
  have h := claim_session_gate
  exact ⟨h.1 Nat "GET" "/api/bugs" [refBug] bulkDeleteHandler (fun _ => true) (by decide),
         h.2.2.1 "admin" 1000 (by decide), h.2.2.2 "admin" 1000⟩

/-! ## Claim C9 — view composition -/

/-- Claim C9: with a non-empty label filter set only records whose label is
a member of the set are displayed, and an empty filter set applies no label
filtering; stable-sorting the displayed set by risk score descending yields
non-increasing impact × likelihood values and preserves the original order
of records with equal scores. -/
theorem claim_view_composition (bugs : List BugRecord) (tab : ViewTab)
    (filters : List String) :
    (filters ≠ [] → ∀ b ∈ displayedBugs bugs tab filters,
      ∃ l, b.label = some l ∧ l ∈ filters) ∧
    (displayedBugs bugs tab [] = bugs.filter (statusMatches tab)) ∧
    List.Pairwise (fun a b => bugScore b ≤ bugScore a)
      (sortedBugs (displayedBugs bugs tab filters) true .desc) ∧
    (∀ k : Int,
      (sortedBugs (displayedBugs bugs tab filters) true .desc).filter
          (fun b => bugScore b == k) =
        (displayedBugs bugs tab filters).filter (fun b => bugScore b == k)) := by
  refine ⟨?_, ?_, ?_, ?_⟩
  · intro hne b hb
    have hmem := List.mem_filter.mp hb
    have hlab := (Bool.and_eq_true _ _).mp hmem.2 |>.2
    unfold labelMatches at hlab
    have hfilters : filters.isEmpty = false := by
      cases filters with
      | nil => exact absurd rfl hne
      | cons a as => rfl
    rw [hfilters] at hlab
    simp only [Bool.false_or] at hlab
    cases hl : b.label with
    | none => rw [hl] at hlab; simp at hlab
    | some l =>
      rw [hl] at hlab
      exact ⟨l, rfl, List.elem_iff.mp ((Bool.and_eq_true _ _).mp hlab).2⟩
  · have hfun : (fun b => statusMatches tab b && labelMatches [] b) =
        (fun b => statusMatches tab b) := by
      funext b; simp [labelMatches]
    rw [displayedBugs, hfun]
  · unfold sortedBugs
    rw [if_pos rfl]
    have h := List.sorted_mergeSort (scoreLe_trans .desc)
      (scoreLe_total .desc) (displayedBugs bugs tab filters)
    refine h.imp ?_
    intro a b hab
    simpa [scoreLe] using hab
  · intro k
    unfold sortedBugs
    rw [if_pos rfl]
    exact filter_mergeSort_scoreLe .desc (displayedBugs bugs tab filters) k

/-- Demo records for the C9 witness: two open records with label "TSO" and
one with "Accounts / login", scores 4, 25 and 4. -/
def recA : BugRecord :=
  { id := "a", ticket := none, description := "a", jiraLink := none,
    impact := 2, likelihood := 2, label := some "TSO",
    createdAt := 0, completedAt := none, reference := false }

def recB : BugRecord :=
  { id := "b", ticket := none, description := "b", jiraLink := none,
    impact := 5, likelihood := 5, label := some "Accounts / login",
    createdAt := 0, completedAt := none, reference := false }

def recC : BugRecord :=
  { id := "c", ticket := none, description := "c", jiraLink := none,
    impact := 4, likelihood := 1, label := some "TSO",
    createdAt := 0, completedAt := none, reference := false }

def demoRecords : List BugRecord := [recA, recB, recC]

/-- Witness for claim C9: filtering `demoRecords` on label set ["TSO"]
shows only TSO records; descending score sort puts the score-25 record
first and keeps the two score-4 records in original order. -/
theorem claim_view_composition_witness :
    (∃ l, recA.label = some l ∧ l ∈ ["TSO"]) ∧
    displayedBugs demoRecords .openTab [] = demoRecords ∧
    (sortedBugs (displayedBugs demoRecords .openTab []) true .desc).filter
        (fun b => bugScore b == 4) =
      (displayedBugs demoRecords .openTab []).filter (fun b => bugScore b == 4) := by
  have h := claim_view_composition demoRecords ViewTab.openTab ["TSO"]
  refine ⟨h.1 (by decide) recA (by decide), ?_, ?_⟩
  · rw [(claim_view_composition demoRecords ViewTab.openTab []).2.1]; decide
  · exact (claim_view_composition demoRecords ViewTab.openTab []).2.2.2 4

end BugBeheer
